import Mathlib

/-!
Shallow embedding of the authentication core of the SOC-project repository:
the Express authentication middleware and GitHub OAuth callback handler
(server.js), the client-side auth service (decodeGoogleToken,
handleGitHubCallback, localStorage session store), and the client-side
redirect-back handler (App.tsx, handleGitHubCallbackFlow).

JavaScript truthiness on strings (undefined, null, empty string are falsy)
is modelled by jsFalsyStr over Option String; numeric truthiness
(undefined and 0 falsy) by jsFalsyNat over Option Nat. Absent headers,
absent JSON fields and absent environment variables are modelled as none.
Network calls (axios, fetch) are modelled by passing their outcome as an
explicit parameter; localStorage is modelled as explicit state passing.
-/

/-- Model of JavaScript falsiness for a string-or-undefined value:
`!x` is true when x is undefined, null or the empty string. -/
def jsFalsyStr : Option String → Bool
  | none => true
  | some s => s.isEmpty

/-- Model of JavaScript falsiness for a number-or-undefined value:
`!x` is true when x is undefined, null or 0. -/
def jsFalsyNat : Option Nat → Bool
  | none => true
  | some n => n == 0

/-- The canonical client-side identity record (interface User in the auth
service): id is Option because the code copies decoded.sub unchecked and
that claim may be absent. tokenExpiry is epoch milliseconds. -/
structure User where
  id : Option String
  email : String
  name : String
  picture : Option String
  provider : String
  token : String
  tokenExpiry : Option Nat
deriving Repr, DecidableEq

/-- Decoded payload of a signed identity token (the claims jwtDecode
yields): every claim may be absent. exp is in seconds. -/
structure JwtPayload where
  sub : Option String
  email : Option String
  name : Option String
  picture : Option String
  exp : Option Nat
deriving Repr, DecidableEq

/-- decodeGoogleToken from the auth service. The jwtDecode call is modelled
by its result: none when decoding throws (malformed token), some payload
otherwise. Returns none where the code returns null (the catch branch).
The expiry claim is converted seconds to milliseconds; a falsy exp
(absent or 0) yields no expiry, and a falsy name claim defaults to
the string User. -/
def decodeGoogleToken (decoded : Option JwtPayload) (token : String) : Option User :=
  match decoded with
  | none => none
  | some d =>
    if jsFalsyStr d.email then none
    else
      some {
        id := d.sub
        email := d.email.getD ""
        name := if jsFalsyStr d.name then "User" else d.name.getD ""
        picture := d.picture
        provider := "google"
        token := token
        tokenExpiry := match d.exp with
          | none => none
          | some e => if e = 0 then none else some (e * 1000) }

/-- A GitHub user-profile response body (api.github.com/user):
id is the numeric GitHub user id; email may be null. -/
structure GitHubProfile where
  id : Nat
  login : String
  name : Option String
  email : Option String
  avatar_url : Option String
deriving Repr, DecidableEq

/-- Success JSON body of the POST /api/auth/github/callback endpoint,
exactly the fields server.js sends: there is no token-expiry field. -/
structure CallbackSuccess where
  access_token : String
  github_id : Nat
  login : String
  email : Option String
  avatar_url : Option String
  name : Option String
deriving Repr, DecidableEq

/-- Outcome of the callback endpoint: a success body, or a failure with an
HTTP status, error label and message. -/
inductive CallbackResponse
  | success (body : CallbackSuccess)
  | failure (status : Nat) (error : String) (message : String)
deriving Repr, DecidableEq

/-- Outcome of an axios call: the parsed response data, or a throw
(non-2xx HTTP status or transport failure). -/
inductive AxiosResult (α : Type)
  | ok (data : α)
  | err (msg : String)
deriving Repr, DecidableEq

/-- Response data of the code-for-token exchange with GitHub: either an
error field or an access_token field is set. -/
structure TokenData where
  error : Option String
  error_description : Option String
  access_token : Option String
deriving Repr, DecidableEq

/-- Server-side GitHub OAuth configuration (environment variables). -/
structure ExchangeEnv where
  clientId : Option String
  clientSecret : Option String
deriving Repr, DecidableEq

/-- The POST /api/auth/github/callback handler from server.js. The two
outbound axios calls (code exchange, profile fetch) are modelled by their
outcomes. Mirrors the source control flow: missing code gives 400, missing
configuration gives 500, exchange throw gives 500, an error field in the
exchange response gives 401, a missing access token gives 401, a profile
fetch throw gives 500, and otherwise the success body is sent. -/
def githubCallbackHandler (code : Option String) (env : ExchangeEnv)
    (exchange : AxiosResult TokenData) (profileFetch : AxiosResult GitHubProfile) :
    CallbackResponse :=
  if jsFalsyStr code then
    .failure 400 "Bad Request" "Missing authorization code"
  else if jsFalsyStr env.clientId || jsFalsyStr env.clientSecret then
    .failure 500 "Internal Server Error" "GitHub OAuth not configured"
  else
    match exchange with
    | .err _ => .failure 500 "Token Exchange Failed" "Failed to exchange code for access token"
    | .ok td =>
      if !jsFalsyStr td.error then
        .failure 401 "Unauthorized" "OAuth exchange failed"
      else if jsFalsyStr td.access_token then
        .failure 401 "Unauthorized" "No access token received from GitHub"
      else
        match profileFetch with
        | .err _ => .failure 500 "User Info Fetch Failed" "Failed to fetch user info from GitHub"
        | .ok pr => .success {
            access_token := td.access_token.getD ""
            github_id := pr.id
            login := pr.login
            email := pr.email
            avatar_url := pr.avatar_url
            name := pr.name }

/-- The JSON body the client parses from the callback endpoint response:
every field may be absent. token_expiry is read by the client although the
server never sends it. -/
structure GitHubCallbackResponse where
  access_token : Option String
  github_id : Option Nat
  login : String
  email : Option String
  avatar_url : Option String
  name : Option String
  token_expiry : Option Nat
deriving Repr, DecidableEq

/-- How the client-side fetch of the callback endpoint resolves: an ok
response with parsed JSON data, a non-ok HTTP response, or a network
failure. -/
inductive FetchResult
  | ok (data : GitHubCallbackResponse)
  | httpError (status : Nat) (message : String)
  | networkError (msg : String)
deriving Repr, DecidableEq

/-- The parsed-JSON view of a server success body: field for field, with
token_expiry := none because the server sends no such field. -/
def clientViewOfSuccess (b : CallbackSuccess) : GitHubCallbackResponse :=
  { access_token := some b.access_token
    github_id := some b.github_id
    login := b.login
    email := b.email
    avatar_url := b.avatar_url
    name := b.name
    token_expiry := none }

/-- handleGitHubCallback from the auth service: any non-ok response or
network error is caught and yields null; an ok response missing the
access token or the GitHub id (falsy) yields null; otherwise the User is
built, with a placeholder email user_<id>@github.com when the email field
is falsy. The saveUserToStorage side effect is modelled separately by the
session-store functions. -/
def handleGitHubCallback : FetchResult → Option User
  | .httpError _ _ => none
  | .networkError _ => none
  | .ok d =>
    if jsFalsyStr d.access_token || jsFalsyNat d.github_id then none
    else
      some {
        id := d.github_id.map toString
        email := if jsFalsyStr d.email then
            "user_" ++ toString (d.github_id.getD 0) ++ "@github.com"
          else d.email.getD ""
        name := d.login
        picture := d.avatar_url
        provider := "github"
        token := d.access_token.getD ""
        tokenExpiry := d.token_expiry }

/-- The localStorage slot under the user key: empty, holding a string that
does not parse as JSON, or holding the serialization of a User. -/
inductive StoredRecord
  | unparsable (raw : String)
  | record (u : User)
deriving Repr, DecidableEq

/-- State of the browser localStorage user slot. -/
abbrev Storage := Option StoredRecord

/-- isTokenValid from the auth service: false for null user, true when
tokenExpiry is falsy (absent or 0, by the JavaScript truthiness check),
otherwise expiry strictly greater than the current time. now is
Date.now() in epoch milliseconds. -/
def isTokenValid (u : Option User) (now : Nat) : Bool :=
  match u with
  | none => false
  | some u =>
    match u.tokenExpiry with
    | none => true
    | some e => if e = 0 then true else decide (now < e)

/-- saveUserToStorage: overwrite the slot with the serialized User. -/
def saveUserToStorage (u : User) (_ : Storage) : Storage :=
  some (.record u)

/-- getUserFromStorage: returns the retrieved user (or none) and the
storage state afterwards. An empty slot yields none; an unparsable slot is
removed and yields none; a parsed user failing isTokenValid is removed
and yields none. -/
def getUserFromStorage (s : Storage) (now : Nat) : Option User × Storage :=
  match s with
  | none => (none, none)
  | some (.unparsable _) => (none, none)
  | some (.record u) =>
    if isTokenValid (some u) now then (some u, some (.record u))
    else (none, none)

/-- clearUserFromStorage: remove the slot. -/
def clearUserFromStorage (_ : Storage) : Storage := none

/-- Headers the middleware reads from an incoming request; none models an
absent header. -/
structure Headers where
  authorization : Option String
  xApiKey : Option String
  xUserProvider : Option String
  xUserEmail : Option String
deriving Repr, DecidableEq

/-- Server environment for the middleware: the configured API key. -/
structure Env where
  apiKey : Option String
deriving Repr, DecidableEq

/-- The principal the middleware attaches as req.user. The OAuth paths set
all five fields; the static-key path sets neither id nor name. The GitHub
path stores the numeric profile id rendered as a string. -/
structure Principal where
  email : Option String
  name : Option String
  id : Option String
  provider : String
  token : String
deriving Repr, DecidableEq

/-- Middleware outcome: attach a principal and call next, or respond with
a status, error label and message. -/
inductive AuthResult
  | ok (user : Principal)
  | reject (status : Nat) (error : String) (message : String)
deriving Repr, DecidableEq

/-- HTTP status of a middleware outcome (200 for the pass-through case). -/
def AuthResult.status : AuthResult → Nat
  | .ok _ => 200
  | .reject s _ _ => s

/-- A verification call the middleware issued. -/
inductive VerifyCall
  | google (token : String)
  | github (token : String)
deriving Repr, DecidableEq

/-- Result of verifyGoogleToken or verifyGitHubToken: the extracted user
info or a thrown error message. -/
structure ServerUserInfo where
  email : Option String
  name : Option String
  sub : Option String
deriving Repr, DecidableEq

/-- verifyGoogleToken from server.js: jwt.decode is modelled by its result
(none when the token is malformed). A falsy email claim throws; the
wrapped message matches the source catch. -/
def verifyGoogleToken (decoded : Option JwtPayload) : Except String ServerUserInfo :=
  match decoded with
  | none => .error "Google token verification failed: Invalid Google token structure"
  | some d =>
    if jsFalsyStr d.email then
      .error "Google token verification failed: Invalid Google token structure"
    else .ok { email := d.email, name := d.name, sub := d.sub }

/-- How the axios GET of api.github.com/user in verifyGitHubToken
resolves. rejected covers the provider answering with a non-2xx status
(axios throws); transportError covers a network-level failure (axios also
throws). The source merges both in one catch; the split is kept in the
model so theorems can speak about each cause. -/
inductive GitHubApiOutcome
  | ok (profile : GitHubProfile)
  | rejected (msg : String)
  | transportError (msg : String)
deriving Repr, DecidableEq

/-- verifyGitHubToken from server.js: a successful profile fetch yields
the user info (name falling back to login); any throw is wrapped with the
source error text. -/
def verifyGitHubToken : GitHubApiOutcome → Except String ServerUserInfo
  | .ok p =>
    .ok { email := p.email
          name := some (if jsFalsyStr p.name then p.login else p.name.getD "")
          sub := some (toString p.id) }
  | .rejected m => .error ("GitHub token verification failed: " ++ m)
  | .transportError m => .error ("GitHub token verification failed: " ++ m)

/-- The bearer token of a request: the authorization header must start
with the exact text Bearer followed by a space; the token is the rest
(slice from index 7). The test and the slice are over the character list
so that concrete instances evaluate in the kernel. -/
def bearerToken (h : Headers) : Option String :=
  match h.authorization with
  | some a =>
    if ("Bearer " : String).data.isPrefixOf a.data then some (String.mk (a.data.drop 7))
    else none
  | none => none

/-- The authenticate middleware from server.js. googleDecode and githubApi
model the outcomes of the verification calls this request would make. The
second component records which verification calls were issued. Any error
thrown by a verification function is caught by the final catch and mapped
to a 401 with the error message. -/
def authenticate (h : Headers) (env : Env) (googleDecode : Option JwtPayload)
    (githubApi : GitHubApiOutcome) : AuthResult × List VerifyCall :=
  match bearerToken h with
  | some token =>
    if jsFalsyStr h.xUserProvider then
      (.reject 400 "Bad Request" "Missing x-user-provider header", [])
    else if h.xUserProvider = some "google" then
      match verifyGoogleToken googleDecode with
      | .ok ui => (.ok { email := ui.email, name := ui.name, id := ui.sub,
                         provider := "google", token := token }, [.google token])
      | .error m => (.reject 401 "Unauthorized" m, [.google token])
    else if h.xUserProvider = some "github" then
      match verifyGitHubToken githubApi with
      | .ok ui => (.ok { email := ui.email, name := ui.name, id := ui.sub,
                         provider := "github", token := token }, [.github token])
      | .error m => (.reject 401 "Unauthorized" m, [.github token])
    else
      (.reject 400 "Bad Request" "Unknown provider", [])
  | none =>
    match h.xApiKey with
    | some key =>
      if key.isEmpty then
        (.reject 401 "Unauthorized" "Missing authentication credentials (OAuth token or API Key)", [])
      else if env.apiKey = some key then
        (.ok { email := some "api-client", name := none, id := none,
               provider := "api-key", token := key }, [])
      else
        (.reject 403 "Forbidden" "Invalid API Key", [])
    | none =>
      (.reject 401 "Unauthorized" "Missing authentication credentials (OAuth token or API Key)", [])

/-- The authenticatedBy sub-object the POST /api/records handler builds
from req.user; an undefined field stays absent in the stored document. -/
structure AuthenticatedBy where
  provider : String
  email : Option String
  userId : Option String
  name : Option String
deriving Repr, DecidableEq

/-- The mapping from the attached principal to the persisted
authenticatedBy sub-object in the records endpoint. -/
def recordAuthenticatedBy (u : Principal) : AuthenticatedBy :=
  { provider := u.provider, email := u.email, userId := u.id, name := u.name }

/-- Observable outcome of handleGitHubCallbackFlow in App.tsx: whether the
query parameters were stripped from the visible location, whether the
exchange endpoint was called, and the resulting user if any. -/
structure FlowResult where
  stripped : Bool
  exchangeCalled : Bool
  user : Option User
deriving Repr, DecidableEq

/-- handleGitHubCallbackFlow from App.tsx: an error query parameter is
logged and the query string stripped without calling the exchange; a code
parameter triggers the exchange, and the strip happens only inside the
success branch (a null result from handleGitHubCallback only logs). -/
def handleGitHubCallbackFlow (code error : Option String) (exchange : FetchResult) :
    FlowResult :=
  if !jsFalsyStr error then
    { stripped := true, exchangeCalled := false, user := none }
  else if !jsFalsyStr code then
    match handleGitHubCallback exchange with
    | some u => { stripped := true, exchangeCalled := true, user := some u }
    | none => { stripped := false, exchangeCalled := true, user := none }
  else
    { stripped := false, exchangeCalled := false, user := none }

/-! Helper lemmas about the truthiness model and decimal rendering. -/

lemma jsFalsyStr_eq_false_iff {o : Option String} :
    jsFalsyStr o = false ↔ ∃ s, o = some s ∧ s ≠ "" := by
  cases o with
  | none => simp [jsFalsyStr]
  | some s => simp [jsFalsyStr, ← String.isEmpty_iff]

lemma jsFalsyNat_eq_false_iff {o : Option Nat} :
    jsFalsyNat o = false ↔ ∃ n, o = some n ∧ n ≠ 0 := by
  cases o with
  | none => simp [jsFalsyNat]
  | some n => simp [jsFalsyNat]

lemma toDigitsCore_le_length (b : Nat) :
    ∀ (f n : Nat) (l : List Char), l.length ≤ (Nat.toDigitsCore b f n l).length := by
  intro f
  induction f with
  | zero => intro n l; simp [Nat.toDigitsCore]
  | succ f ih =>
    intro n l
    simp only [Nat.toDigitsCore]
    split
    · simp
    · calc l.length ≤ (Nat.digitChar (n % b) :: l).length := by simp
        _ ≤ _ := ih (n / b) (Nat.digitChar (n % b) :: l)

lemma repr_ne_empty (n : Nat) : Nat.repr n ≠ "" := by
  intro h
  have h2 := congrArg String.length h
  simp only [Nat.repr, Nat.toDigits, List.length_asString] at h2
  have h3 : (1 : Nat) ≤ (Nat.toDigitsCore 10 (n + 1) n []).length := by
    simp only [Nat.toDigitsCore]
    split
    · simp
    · have hle := toDigitsCore_le_length 10 n (n / 10) [Nat.digitChar (n % 10)]
      simp only [List.length_singleton] at hle
      exact hle
  have h0 : ("" : String).length = 0 := rfl
  omega

lemma toString_nat_ne_empty (n : Nat) : toString n ≠ "" := repr_ne_empty n

lemma placeholder_ne_empty (t : String) : ("user_" ++ t ++ "@github.com") ≠ "" := by
  intro h
  have h2 := congrArg String.length h
  simp only [String.length_append] at h2
  have h5 : ("user_" : String).length = 5 := rfl
  have h11 : ("@github.com" : String).length = 11 := rfl
  have h0 : ("" : String).length = 0 := rfl
  omega

lemma callbackHandler_success_token {code : Option String} {env : ExchangeEnv}
    {exch : AxiosResult TokenData} {prof : AxiosResult GitHubProfile} {b : CallbackSuccess}
    (h : githubCallbackHandler code env exch prof = .success b) : b.access_token ≠ "" := by
  by_cases h1 : jsFalsyStr code = true
  · simp [githubCallbackHandler, h1] at h
  · by_cases h2 : (jsFalsyStr env.clientId || jsFalsyStr env.clientSecret) = true
    · simp [githubCallbackHandler, h1, h2] at h
    · cases exch with
      | err m => simp [githubCallbackHandler, h1, h2] at h
      | ok td =>
        by_cases h3 : jsFalsyStr td.error = false
        · simp [githubCallbackHandler, h1, h2, h3] at h
        · by_cases h4 : jsFalsyStr td.access_token = true
          · simp [githubCallbackHandler, h1, h2, h3, h4] at h
          · cases prof with
            | err m => simp [githubCallbackHandler, h1, h2, h3, h4] at h
            | ok pr =>
              rw [Bool.not_eq_true] at h4
              obtain ⟨s, hs, hne⟩ := jsFalsyStr_eq_false_iff.mp h4
              simp [githubCallbackHandler, h1, h2, h3, h4, CallbackResponse.success.injEq] at h
              subst h
              simp [hs, hne]

/-! Claim theorems. -/

/-- Claim C1, counterexample: on a request with a bearer token and the
github provider header whose verification call fails at the transport
level (axios throws a connection error), the middleware responds 401 with
the wrapped error message, not 500: the claimed transport-error to 500
mapping does not exist in the code. -/
theorem c1_counterexample :
    (authenticate ⟨some "Bearer tok123", none, some "github", none⟩ ⟨none⟩ none
        (.transportError "connect ECONNREFUSED")).fst
      = .reject 401 "Unauthorized" "GitHub token verification failed: connect ECONNREFUSED"
    ∧ (authenticate ⟨some "Bearer tok123", none, some "github", none⟩ ⟨none⟩ none
        (.transportError "connect ECONNREFUSED")).fst.status ≠ 500 := by
  constructor
  · rfl
  · decide

/-- Claim C1, amended: for every request with a bearer token and the
github provider header, the middleware responds 401 Unauthorized with the
wrapped verification error message both when the verification call throws
a transport error and when the provider explicitly rejects the token: the
catch-all maps every thrown verification error to 401, and no 500 response
or distinction between the two causes exists. -/
theorem c1_amended (h : Headers) (env : Env) (gd : Option JwtPayload)
    (o : GitHubApiOutcome) (t m : String)
    (hb : bearerToken h = some t) (hp : h.xUserProvider = some "github")
    (ho : o = .transportError m ∨ o = .rejected m) :
    (authenticate h env gd o).fst
      = .reject 401 "Unauthorized" ("GitHub token verification failed: " ++ m) := by
  rcases ho with rfl | rfl <;>
    simp [authenticate, hb, hp, verifyGitHubToken, jsFalsyStr,
      show ("github" : String).isEmpty = false from rfl]

/-- Claim C1, witness: the amended theorem applied to a concrete request
whose GitHub verification call fails at the transport level. -/
theorem c1_witness :
    (authenticate ⟨some "Bearer t", none, some "github", none⟩ ⟨none⟩ none
        (.transportError "socket hang up")).fst
      = .reject 401 "Unauthorized" ("GitHub token verification failed: " ++ "socket hang up") :=
  c1_amended ⟨some "Bearer t", none, some "github", none⟩ ⟨none⟩ none
    (.transportError "socket hang up") "t" "socket hang up" (by decide) rfl (Or.inl rfl)

/-- Claim C2, counterexample: a redirect-back carrying code=abc123 whose
exchange call fails (the callback endpoint answers non-ok) is processed
without stripping the query parameters: the strip only happens in the
error-parameter branch and in the success branch. -/
theorem c2_counterexample :
    (handleGitHubCallbackFlow (some "abc123") none (.httpError 401 "Unauthorized")).stripped
        = false
    ∧ (handleGitHubCallbackFlow (some "abc123") none (.httpError 401 "Unauthorized")).exchangeCalled
        = true := by
  constructor <;> rfl

/-- Claim C2, amended: the callback handler strips the query parameters
when the error parameter is present (without calling the exchange), and on
a code parameter it strips them exactly when the exchange yields a user;
when the exchange fails the parameters are left in the visible location. -/
theorem c2_amended (code error : Option String) (r : FetchResult) :
    (jsFalsyStr error = false → (handleGitHubCallbackFlow code error r).stripped = true)
    ∧ (jsFalsyStr error = true → jsFalsyStr code = false →
        (handleGitHubCallbackFlow code error r).stripped = (handleGitHubCallback r).isSome) := by
  constructor
  · intro he
    simp [handleGitHubCallbackFlow, he]
  · intro he hc
    simp only [handleGitHubCallbackFlow, he, hc, Bool.not_true, Bool.not_false, if_false, if_true]
    cases hr : handleGitHubCallback r <;> simp [hr]

/-- Claim C2, witness: the amended theorem applied to a redirect-back with
error=access_denied, where the strip does occur. -/
theorem c2_witness :
    (handleGitHubCallbackFlow none (some "access_denied") (.networkError "x")).stripped = true :=
  (c2_amended none (some "access_denied") (.networkError "x")).1 (by decide)

/-- Claim C3, counterexample: a signed token whose payload carries an
email but no sub claim is normalized into an Identity whose id is absent,
refuting that every constructed Identity has a non-empty id. -/
theorem c3_counterexample :
    decodeGoogleToken (some ⟨none, some "alice@example.com", some "Alice", none, none⟩) "tk.pd.sg"
      = some ⟨none, "alice@example.com", "Alice", none, "google", "tk.pd.sg", none⟩
    ∧ (decodeGoogleToken (some ⟨none, some "alice@example.com", some "Alice", none, none⟩)
        "tk.pd.sg").map User.id = some none := by
  constructor <;> rfl

/-- Claim C3, amended: every Identity constructed by either normalization
path has a non-empty email and its provider is the corresponding known
provider value; the provider-profile path additionally guarantees a
non-empty id, but the signed-token path copies the sub claim unchecked,
so its id may be absent or empty. -/
theorem c3_amended :
    (∀ (p : JwtPayload) (t : String) (u : User),
        decodeGoogleToken (some p) t = some u → u.email ≠ "" ∧ u.provider = "google")
    ∧ (∀ (r : FetchResult) (u : User),
        handleGitHubCallback r = some u →
          u.email ≠ "" ∧ u.provider = "github" ∧ ∃ s, u.id = some s ∧ s ≠ "") := by
  constructor
  · intro p t u hu
    cases hf : jsFalsyStr p.email with
    | true => simp [decodeGoogleToken, hf] at hu
    | false =>
      obtain ⟨e, he, hne⟩ := jsFalsyStr_eq_false_iff.mp hf
      simp only [decodeGoogleToken, hf, Bool.false_eq_true, if_false, Option.some.injEq] at hu
      subst hu
      exact ⟨by simp [he, hne], rfl⟩
  · intro r u hu
    cases r with
    | httpError s m => simp [handleGitHubCallback] at hu
    | networkError m => simp [handleGitHubCallback] at hu
    | ok d =>
      cases hf : (jsFalsyStr d.access_token || jsFalsyNat d.github_id) with
      | true => simp [handleGitHubCallback, hf] at hu
      | false =>
        obtain ⟨hft, hfg⟩ := Bool.or_eq_false_iff.mp hf
        obtain ⟨n, hn, hn0⟩ := jsFalsyNat_eq_false_iff.mp hfg
        simp only [handleGitHubCallback, hf, Bool.false_eq_true, if_false,
          Option.some.injEq] at hu
        subst hu
        refine ⟨?_, rfl, toString n, by simp [hn], toString_nat_ne_empty n⟩
        cases hfe : jsFalsyStr d.email with
        | true => simp [hfe]; exact placeholder_ne_empty (toString (d.github_id.getD 0))
        | false =>
          obtain ⟨e, he, hne⟩ := jsFalsyStr_eq_false_iff.mp hfe
          simp [hfe, he, hne]

/-- Claim C3, witness: the amended theorem applied to the signed-token
path at a concrete payload carrying an email and a sub claim. -/
theorem c3_witness :
    ("alice@example.com" : String) ≠ "" ∧ ("google" : String) = "google" :=
  c3_amended.1 ⟨some "s123", some "alice@example.com", some "Alice", none, none⟩ "tk.pd.sg"
    ⟨some "s123", "alice@example.com", "Alice", none, "google", "tk.pd.sg", none⟩ rfl

/-- Claim C4: for every signed-token payload whose email claim is falsy
(absent, null or empty), decodeGoogleToken throws internally, the catch
returns null, and no Identity is produced. -/
theorem c4_theorem (p : JwtPayload) (t : String) (h : jsFalsyStr p.email = true) :
    decodeGoogleToken (some p) t = none := by
  simp [decodeGoogleToken, h]

/-- Claim C4, witness: a concrete payload with name, sub and expiry claims
but no email claim is rejected. -/
theorem c4_witness :
    decodeGoogleToken (some ⟨some "sub1", none, some "Alice", none, some 99⟩) "tk.pd.sg" = none :=
  c4_theorem ⟨some "sub1", none, some "Alice", none, some 99⟩ "tk.pd.sg" rfl

/-- Claim C5: for every success body of the code-exchange endpoint whose
email field is null (and whose GitHub id is a genuine, nonzero user id),
the client normalization produces an Identity with the placeholder email
user_<id>@github.com synthesized from the provider user id, provider
github, the returned access token, and no token expiry. -/
theorem c5_theorem (code : Option String) (env : ExchangeEnv)
    (exch : AxiosResult TokenData) (prof : AxiosResult GitHubProfile) (b : CallbackSuccess)
    (hs : githubCallbackHandler code env exch prof = .success b)
    (he : b.email = none) (hid : b.github_id ≠ 0) :
    handleGitHubCallback (.ok (clientViewOfSuccess b)) = some {
      id := some (toString b.github_id)
      email := "user_" ++ toString b.github_id ++ "@github.com"
      name := b.login
      picture := b.avatar_url
      provider := "github"
      token := b.access_token
      tokenExpiry := none } := by
  have hat : b.access_token ≠ "" := callbackHandler_success_token hs
  have hat2 : b.access_token.isEmpty = false := by
    cases hx : b.access_token.isEmpty with
    | true => exact absurd ((String.isEmpty_iff _).mp hx) hat
    | false => rfl
  simp [handleGitHubCallback, clientViewOfSuccess, jsFalsyStr, jsFalsyNat, he, hid, hat2]

/-- Claim C5, witness: the mocked exchange of the spec example, a server
run answering success with access_token t1, github id 42, login bob and a
null email, produces the Identity with email user_42@github.com, provider
github, token t1 and no expiry. -/
theorem c5_witness :
    handleGitHubCallback (.ok (clientViewOfSuccess ⟨"t1", 42, "bob", none, none, none⟩))
      = some ⟨some "42", "user_42@github.com", "bob", none, "github", "t1", none⟩ :=
  c5_theorem (some "abc123") ⟨some "cid", some "sec"⟩ (.ok ⟨none, none, some "t1"⟩)
    (.ok ⟨42, "bob", none, none, none⟩) ⟨"t1", 42, "bob", none, none, none⟩
    rfl rfl (by decide)

/-- Claim C6, counterexample: a stored Identity with tokenExpiryEpochMs 0,
an instant in the past at any later current time, is returned by load and
the record is left in place: the truthiness check treats a zero expiry as
absent, so a stale identity is returned. -/
theorem c6_counterexample :
    getUserFromStorage
        (some (.record ⟨some "1", "alice@example.com", "Alice", none, "google", "tk", some 0⟩))
        1700000000000
      = (some ⟨some "1", "alice@example.com", "Alice", none, "google", "tk", some 0⟩,
         some (.record ⟨some "1", "alice@example.com", "Alice", none, "google", "tk", some 0⟩)) :=
  rfl

/-- Claim C6, amended: for every stored Identity whose tokenExpiryEpochMs
is nonzero and not in the future, and for every stored record that fails
to parse, load returns none and removes the stored record; a zero expiry
is the one exception, treated as absent by the truthiness check. -/
theorem c6_amended (s : Storage) (now : Nat) :
    (∀ raw, s = some (.unparsable raw) → getUserFromStorage s now = (none, none))
    ∧ (∀ (u : User) (e : Nat), s = some (.record u) → u.tokenExpiry = some e → e ≠ 0 →
        e ≤ now → getUserFromStorage s now = (none, none)) := by
  constructor
  · intro raw hs; subst hs; rfl
  · intro u e hs he h0 hle
    subst hs
    simp [getUserFromStorage, isTokenValid, he, h0, Nat.not_lt.mpr hle]

/-- Claim C6, witness: the amended theorem applied to a stored identity
expired at epoch millisecond 5, loaded at time 9. -/
theorem c6_witness :
    getUserFromStorage (some (.record ⟨some "1", "a@b.c", "A", none, "google", "tk", some 5⟩)) 9
      = (none, none) :=
  (c6_amended (some (.record ⟨some "1", "a@b.c", "A", none, "google", "tk", some 5⟩)) 9).2
    ⟨some "1", "a@b.c", "A", none, "google", "tk", some 5⟩ 5 rfl rfl
    (by decide) (by decide)

/-- Claim C7: for every Identity that is not expired (tokenExpiryEpochMs
absent, or strictly greater than the current time), saving it and then
loading yields the same Identity (and the stored record is kept). -/
theorem c7_theorem (u : User) (s : Storage) (now : Nat)
    (h : u.tokenExpiry = none ∨ ∃ e, u.tokenExpiry = some e ∧ now < e) :
    getUserFromStorage (saveUserToStorage u s) now = (some u, some (.record u)) := by
  rcases h with he | ⟨e, he, hlt⟩
  · simp [saveUserToStorage, getUserFromStorage, isTokenValid, he]
  · by_cases h0 : e = 0
    · simp [saveUserToStorage, getUserFromStorage, isTokenValid, he, h0]
    · simp [saveUserToStorage, getUserFromStorage, isTokenValid, he, h0, hlt]

/-- Claim C7, witness: the round trip on a concrete non-expiring Identity
over an empty store. -/
theorem c7_witness :
    getUserFromStorage
        (saveUserToStorage ⟨some "1", "a@b.c", "A", none, "google", "tk", none⟩ none) 12345
      = (some ⟨some "1", "a@b.c", "A", none, "google", "tk", none⟩,
         some (.record ⟨some "1", "a@b.c", "A", none, "google", "tk", none⟩)) :=
  c7_theorem ⟨some "1", "a@b.c", "A", none, "google", "tk", none⟩ none 12345 (Or.inl rfl)

/-- Claim C8: every request presenting a bearer token in the Authorization
header but no X-User-Provider header is rejected 400 Bad Request, and the
empty call list shows no verification branch was attempted. -/
theorem c8_theorem (h : Headers) (env : Env) (gd : Option JwtPayload) (ga : GitHubApiOutcome)
    (t : String) (hb : bearerToken h = some t) (hp : h.xUserProvider = none) :
    authenticate h env gd ga
      = (.reject 400 "Bad Request" "Missing x-user-provider header", []) := by
  simp [authenticate, hb, hp, jsFalsyStr]

/-- Claim C8, witness: a concrete request carrying a bearer token and even
a valid API key, but no provider header, is rejected 400 with no
verification call. -/
theorem c8_witness :
    authenticate ⟨some "Bearer tok", some "sekret", none, some "a@b.c"⟩ ⟨some "sekret"⟩
        (some ⟨some "s", some "a@b.c", none, none, none⟩) (.ok ⟨42, "bob", none, none, none⟩)
      = (.reject 400 "Bad Request" "Missing x-user-provider header", []) :=
  c8_theorem ⟨some "Bearer tok", some "sekret", none, some "a@b.c"⟩ ⟨some "sekret"⟩
    (some ⟨some "s", some "a@b.c", none, none, none⟩) (.ok ⟨42, "bob", none, none, none⟩)
    "tok" rfl rfl

/-- Claim C9: for every request whose Authorization header is present but
does not begin with the prefix Bearer-space, the bearer credential is
treated as absent: with a nonempty X-API-Key matching the configured
secret the request authenticates via the static-key path, and with no
X-API-Key it is rejected 401, not 400. -/
theorem c9_theorem (h : Headers) (env : Env) (gd : Option JwtPayload) (ga : GitHubApiOutcome)
    (a : String) (ha : h.authorization = some a)
    (hnb : ("Bearer " : String).data.isPrefixOf a.data = false) :
    (∀ k, h.xApiKey = some k → k ≠ "" → env.apiKey = some k →
        (authenticate h env gd ga).fst
          = .ok ⟨some "api-client", none, none, "api-key", k⟩)
    ∧ (h.xApiKey = none →
        (authenticate h env gd ga).fst
          = .reject 401 "Unauthorized"
              "Missing authentication credentials (OAuth token or API Key)") := by
  have hb : bearerToken h = none := by simp [bearerToken, ha, hnb]
  constructor
  · intro k hk hne he
    have hk2 : k.isEmpty = false := by
      cases hx : k.isEmpty with
      | true => exact absurd ((String.isEmpty_iff _).mp hx) hne
      | false => rfl
    simp [authenticate, hb, hk, he, hk2]
  · intro hk
    simp [authenticate, hb, hk]

/-- Claim C9, witness: a request with a Basic authorization header and a
matching API key authenticates via the static-key path. -/
theorem c9_witness :
    (authenticate ⟨some "Basic abc", some "sekret", none, none⟩ ⟨some "sekret"⟩ none
        (.transportError "x")).fst
      = .ok ⟨some "api-client", none, none, "api-key", "sekret"⟩ :=
  (c9_theorem ⟨some "Basic abc", some "sekret", none, none⟩ ⟨some "sekret"⟩ none
      (.transportError "x") "Basic abc" rfl rfl).1 "sekret" rfl (by decide) rfl

/-- Claim C10: every request authenticated via the static-key path gets
the principal with email api-client, provider api-key and the key as
token, with no id and no name; the authenticatedBy sub-object persisted
from it therefore has absent userId and name fields. -/
theorem c10_theorem (h : Headers) (env : Env) (gd : Option JwtPayload) (ga : GitHubApiOutcome)
    (k : String) (hb : bearerToken h = none) (hk : h.xApiKey = some k) (hne : k ≠ "")
    (he : env.apiKey = some k) :
    (authenticate h env gd ga).fst = .ok ⟨some "api-client", none, none, "api-key", k⟩
    ∧ recordAuthenticatedBy ⟨some "api-client", none, none, "api-key", k⟩
        = ⟨"api-key", some "api-client", none, none⟩ := by
  have hk2 : k.isEmpty = false := by
    cases hx : k.isEmpty with
    | true => exact absurd ((String.isEmpty_iff _).mp hx) hne
    | false => rfl
  exact ⟨by simp [authenticate, hb, hk, he, hk2], rfl⟩

/-- Claim C10, witness: the static-key principal and its persisted
authenticatedBy sub-object at a concrete request. -/
theorem c10_witness :
    (authenticate ⟨none, some "sekret", none, none⟩ ⟨some "sekret"⟩ none
        (.transportError "x")).fst
      = .ok ⟨some "api-client", none, none, "api-key", "sekret"⟩
    ∧ recordAuthenticatedBy ⟨some "api-client", none, none, "api-key", "sekret"⟩
        = ⟨"api-key", some "api-client", none, none⟩ :=
  c10_theorem ⟨none, some "sekret", none, none⟩ ⟨some "sekret"⟩ none
    (.transportError "x") "sekret" rfl rfl (by decide) rfl
